import Mathlib

/-!
Verification of the suppression filter of the `cppcheck.py` wrapper.

The wrapper captures the diagnostic stream of a static-analysis binary and
suppresses previously-seen warnings across runs.  The core is embedded here:

* `Filter`     — the plain line filter (class `Filter` in the source);
* `XmlFilter`  — the streaming XML record filter (class `XmlFilter`);
* `FS`         — a model of the file system used by the pickled store, a map
  from paths to the key set of the pickled dictionary (pickle serialization
  itself is treated as an abstract round-tripping codec; values of the
  dictionary are always `None` in the source and are dropped);
* `relay`      — the main relay loop that routes lines through the filter.

Python dictionaries are modelled by their insertion-ordered key lists, since
every stored value is `None`.  Exceptions escaping a function are modelled by
`Option`/`none` results where they can occur (`int()` on a non-numeric
capture).  Warnings written to stderr are modelled by the `Warn` inductive.
-/

namespace PyCppcheck

/-- File-system model: a path maps to the key set of the pickled dictionary
stored in the file at that path (`none` = no file exists at the path). -/
abbrev FS : Type := String → Option (List String)

/-- Warnings the filters write to stderr. -/
inductive Warn where
  /-- `Warning: file ... not found. Ignoring...` -/
  | missingFile (fn : String)
  /-- `Warning: file ... already exists. Use --force (-f) option to overwrite file.` -/
  | fileExists (fn : String)
deriving DecidableEq

/-- Python dictionary insertion `d[k] = None` restricted to the key list:
a present key keeps its position, an absent key is appended. -/
def insertKey (d : List String) (k : String) : List String :=
  if k ∈ d then d else d ++ [k]

/-- The plain line filter (class `Filter`): each raw output line is its own
fingerprint.  Fields mirror `_filename`, `_read_mode`, `_overwrite`,
`_lines_dict`. -/
structure Filter where
  filename : String
  read_mode : Bool
  overwrite : Bool
  lines_dict : List String
deriving DecidableEq

/-- `Filter.is_active`: `not self._read_mode or self._lines_dict`. -/
def Filter.is_active (f : Filter) : Bool :=
  !f.read_mode || !f.lines_dict.isEmpty

/-- `Filter._read`: clear the dictionary, then in read mode with a nonempty
filename load the pickled dictionary; a missing file (`IOError`) warns and
leaves the dictionary empty. -/
def Filter._read (fs : FS) (f : Filter) : Filter × List Warn :=
  let f0 := { f with lines_dict := ([] : List String) }
  if f.read_mode = true ∧ f.filename ≠ "" then
    match fs f.filename with
    | some d => ({ f0 with lines_dict := d }, [])
    | none => (f0, [Warn.missingFile f.filename])
  else (f0, [])

/-- `Filter._write`: in write mode, with `is_active()` true and a nonempty
filename, dump the dictionary — unless the file exists and overwrite is off,
in which case warn and skip the write. -/
def Filter._write (fs : FS) (f : Filter) : FS × List Warn :=
  if f.read_mode = false ∧ Filter.is_active f = true ∧ f.filename ≠ "" then
    if f.overwrite = false ∧ (fs f.filename).isSome = true then
      (fs, [Warn.fileExists f.filename])
    else
      (fun p => if p = f.filename then some f.lines_dict else fs p, [])
  else (fs, [])

/-- `Filter.process`: write mode inserts the line and returns `True`;
read mode returns `line not in self._lines_dict`. -/
def Filter.process (f : Filter) (line : String) : Filter × Bool :=
  if f.read_mode = false then
    ({ f with lines_dict := insertKey f.lines_dict line }, true)
  else
    (f, decide (line ∉ f.lines_dict))

namespace XmlFilter

/-- The in-flight diagnostic record (class `XmlFilter.Error`), with the
source's class-level defaults. -/
structure Error where
  id : String := ""
  severity : String := ""
  msg : String := ""
  file : String := ""
  line : Int := 0
  node : String := ""
deriving DecidableEq

/-- `Error.is_valid`: truthiness of `self.id` (nonempty string). -/
def Error.is_valid (e : Error) : Bool :=
  e.id != ""

/-- `Error.get_suppress_format`: `[id]:[file]:[line]`, degrading to
`[id]:[file]` when `line` is falsy (0) and to `[id]` when `file` is empty;
`None` when the record is invalid (empty id). -/
def Error.get_suppress_format (e : Error) : Option String :=
  if e.is_valid then
    if e.file != "" then
      if e.line != 0 then
        some ("[" ++ e.id ++ "]:[" ++ e.file ++ "]:[" ++ toString e.line ++ "]")
      else
        some ("[" ++ e.id ++ "]:[" ++ e.file ++ "]")
    else
      some ("[" ++ e.id ++ "]")
  else none

end XmlFilter

/-- Split a character list at the first double quote: the regex class
`[^"]+` greedily matches exactly the part before the first quote. -/
def spanNonQuote : List Char → List Char × List Char
  | [] => ([], [])
  | c :: cs =>
    if c = '"' then ([], c :: cs)
    else
      let p := spanNonQuote cs
      (c :: p.1, p.2)

/-- Strip a literal prefix; `none` when the input does not start with it. -/
def stripLit : List Char → List Char → Option (List Char)
  | [], s => some s
  | _ :: _, [] => none
  | c :: cs, d :: ds => if c = d then stripLit cs ds else none

/-- Python `\n$` at the end of an anchored pattern: the literal newline
followed by `$`, which accepts the end of the string or a position just
before one final trailing newline. -/
def endNL (r : List Char) : Bool :=
  r = ['\n'] || r = ['\n', '\n']

/-- Deterministic matcher for `_start_re`
`^ {8}<error id="([^"]+)" severity="([^"]+)" msg="([^"]+)" verbose="[^"]+"(/?)>\n$`;
returns the captures (id, severity, msg, self-closing flag).  Each `([^"]+)"`
admits exactly one decomposition, so the translation needs no backtracking. -/
def matchStart (s : List Char) : Option (List Char × List Char × List Char × Bool) :=
  match stripLit "        <error id=\"".data s with
  | none => none
  | some r0 =>
    let pId := spanNonQuote r0
    if pId.1.isEmpty then none else
    match stripLit "\" severity=\"".data pId.2 with
    | none => none
    | some r1 =>
      let pSev := spanNonQuote r1
      if pSev.1.isEmpty then none else
      match stripLit "\" msg=\"".data pSev.2 with
      | none => none
      | some r2 =>
        let pMsg := spanNonQuote r2
        if pMsg.1.isEmpty then none else
        match stripLit "\" verbose=\"".data pMsg.2 with
        | none => none
        | some r3 =>
          let pVerb := spanNonQuote r3
          if pVerb.1.isEmpty then none else
          match stripLit "\"".data pVerb.2 with
          | none => none
          | some r4 =>
            match r4 with
            | '/' :: r5 =>
              match stripLit ">".data r5 with
              | none => none
              | some r6 =>
                if endNL r6 then some (pId.1, pSev.1, pMsg.1, true) else none
            | _ =>
              match stripLit ">".data r4 with
              | none => none
              | some r6 =>
                if endNL r6 then some (pId.1, pSev.1, pMsg.1, false) else none

/-- Deterministic matcher for `_location_re`
`^ {12}<location file="([^"]+)" line="([^"]+)"/>\n$`;
returns the captures (file, line attribute text). -/
def matchLocation (s : List Char) : Option (List Char × List Char) :=
  match stripLit "            <location file=\"".data s with
  | none => none
  | some r0 =>
    let pFile := spanNonQuote r0
    if pFile.1.isEmpty then none else
    match stripLit "\" line=\"".data pFile.2 with
    | none => none
    | some r1 =>
      let pLine := spanNonQuote r1
      if pLine.1.isEmpty then none else
      match stripLit "\"/>".data pLine.2 with
      | none => none
      | some r2 => if endNL r2 then some (pFile.1, pLine.1) else none

/-- Deterministic matcher for `_end_re` `^ {8}</error>\n$`. -/
def matchEnd (s : List Char) : Bool :=
  match stripLit "        </error>".data s with
  | none => false
  | some r => endNL r

/-- Fold a digit list into a natural number. -/
def digitsToNat (ds : List Char) : Nat :=
  ds.foldl (fun acc c => 10 * acc + (c.toNat - '0'.toNat)) 0

/-- Python `int(str)` on the forms the wrapper can receive: surrounding
whitespace, an optional sign, then decimal digits; anything else raises
`ValueError`, modelled as `none`.  (Underscore digit separators and
non-ASCII digits, which CPython also accepts, are not modelled; no
diagnostic line attribute uses them.) -/
def pyInt (s : List Char) : Option Int :=
  let t := ((s.dropWhile Char.isWhitespace).reverse.dropWhile Char.isWhitespace).reverse
  match t with
  | '-' :: ds =>
    if ds ≠ [] ∧ ds.all Char.isDigit then some (-(digitsToNat ds : Int)) else none
  | '+' :: ds =>
    if ds ≠ [] ∧ ds.all Char.isDigit then some ((digitsToNat ds : Int)) else none
  | ds =>
    if ds ≠ [] ∧ ds.all Char.isDigit then some ((digitsToNat ds : Int)) else none

/-- Result of `XmlFilter._parse_line`: a Python `bool`, or the result of
`get_suppress_format()` (a fingerprint string, or `None` for an invalid
record). -/
inductive ParseRes where
  | bool (b : Bool)
  | fp (s : Option String)
deriving DecidableEq

/-- The streaming XML record filter (class `XmlFilter`).  Fields mirror
`_filename`, `_read_mode`, `_overwrite`, `_lines_dict`, `_error_node`. -/
structure XmlFilter where
  filename : String
  read_mode : Bool
  overwrite : Bool
  lines_dict : List String
  error_node : XmlFilter.Error
deriving DecidableEq

/-- `XmlFilter.is_active`: `not self._read_mode or self._lines_dict`. -/
def XmlFilter.is_active (f : XmlFilter) : Bool :=
  !f.read_mode || !f.lines_dict.isEmpty

/-- `XmlFilter._read`: same logic as `Filter._read` (the source opens the
file in text mode here; the pickle codec is abstracted either way). -/
def XmlFilter._read (fs : FS) (f : XmlFilter) : XmlFilter × List Warn :=
  let f0 := { f with lines_dict := ([] : List String) }
  if f.read_mode = true ∧ f.filename ≠ "" then
    match fs f.filename with
    | some d => ({ f0 with lines_dict := d }, [])
    | none => (f0, [Warn.missingFile f.filename])
  else (f0, [])

/-- `XmlFilter._write`: same logic as `Filter._write`. -/
def XmlFilter._write (fs : FS) (f : XmlFilter) : FS × List Warn :=
  if f.read_mode = false ∧ XmlFilter.is_active f = true ∧ f.filename ≠ "" then
    if f.overwrite = false ∧ (fs f.filename).isSome = true then
      (fs, [Warn.fileExists f.filename])
    else
      (fun p => if p = f.filename then some f.lines_dict else fs p, [])
  else (fs, [])

/-- `XmlFilter._parse_line`, as a state transition on the error node.
A start-pattern match resets the record, stores the raw line as the node and
the captures as id/severity/msg, and for a self-closing tag immediately
returns the fingerprint.  Otherwise the line is appended to the node; a
location match stores file and `int(line)` (a non-numeric attribute raises
`ValueError`, modelled by `none`); an end match returns the fingerprint; any
other line returns `True`.  All remaining paths return `False`. -/
def XmlFilter._parse_line (e : XmlFilter.Error) (line : String) :
    Option (XmlFilter.Error × ParseRes) :=
  match matchStart line.data with
  | some (gId, gSev, gMsg, selfClosing) =>
    let e1 : XmlFilter.Error :=
      { id := String.mk gId, severity := String.mk gSev, msg := String.mk gMsg,
        file := "", line := 0, node := line }
    if selfClosing then some (e1, ParseRes.fp e1.get_suppress_format)
    else some (e1, ParseRes.bool false)
  | none =>
    let e1 := { e with node := e.node ++ line }
    match matchLocation line.data with
    | some (gFile, gLine) =>
      match pyInt gLine with
      | some n => some ({ e1 with file := String.mk gFile, line := n }, ParseRes.bool false)
      | none => none
    | none =>
      if matchEnd line.data then some (e1, ParseRes.fp e1.get_suppress_format)
      else some (e1, ParseRes.bool true)

/-- What `XmlFilter.process` hands back to the relay loop: a Python `bool`
(emit the current line or not) or a string (the accumulated record text,
written verbatim by the relay). -/
inductive ProcRes where
  | emit (b : Bool)
  | text (s : String)
deriving DecidableEq

/-- `XmlFilter.process`: parse the line, then in write mode store a string
result in the dictionary and return `True`; in read mode a `bool` parse
result is returned as is, a fingerprint absent from the dictionary returns
the accumulated node text, and a present fingerprint returns `False`.
(`None` is never a dictionary key, so a `None` fingerprint also takes the
`not in` branch and returns the node text.) -/
def XmlFilter.process (f : XmlFilter) (line : String) :
    Option (XmlFilter × ProcRes) :=
  match XmlFilter._parse_line f.error_node line with
  | none => none
  | some (e1, pr) =>
    let f1 := { f with error_node := e1 }
    if f.read_mode = false then
      match pr with
      | ParseRes.fp (some s) =>
        some ({ f1 with lines_dict := insertKey f1.lines_dict s }, ProcRes.emit true)
      | _ => some (f1, ProcRes.emit true)
    else
      match pr with
      | ParseRes.bool b => some (f1, ProcRes.emit b)
      | ParseRes.fp (some s) =>
        if s ∈ f.lines_dict then some (f1, ProcRes.emit false)
        else some (f1, ProcRes.text e1.node)
      | ParseRes.fp none => some (f1, ProcRes.text e1.node)

/-- Either concrete filter, as held by the `filter` variable of the main
script. -/
inductive AnyFilter where
  | plain (f : Filter)
  | xml (f : XmlFilter)

/-- `is_active()` dispatched on the concrete filter. -/
def AnyFilter.is_active : AnyFilter → Bool
  | AnyFilter.plain f => Filter.is_active f
  | AnyFilter.xml f => XmlFilter.is_active f

/-- `process()` dispatched on the concrete filter; the plain filter's
boolean becomes an emit decision. -/
def AnyFilter.process : AnyFilter → String → Option (AnyFilter × ProcRes)
  | AnyFilter.plain f, line =>
    let p := Filter.process f line
    some (AnyFilter.plain p.1, ProcRes.emit p.2)
  | AnyFilter.xml f, line =>
    match XmlFilter.process f line with
    | none => none
    | some (f1, r) => some (AnyFilter.xml f1, r)

/-- Main script, lines 291-293: `if not filter.is_active(): filter = None`. -/
def setupFilter (f : AnyFilter) : Option AnyFilter :=
  if f.is_active then some f else none

/-- One iteration of the relay loop (main script, lines 305-312): with no
filter the line is written unchanged; a string result from `process` is
written instead of the line; a truthy result writes the line; a falsy
result drops it. -/
def relayLine (st : Option AnyFilter) (line : String) :
    Option (Option AnyFilter × List String) :=
  match st with
  | none => some (none, [line])
  | some f =>
    match f.process line with
    | none => none
    | some (f1, ProcRes.text s) => some (some f1, [s])
    | some (f1, ProcRes.emit b) => some (some f1, if b then [line] else [])

/-- The relay loop over a finite stream of nonempty lines; at end of stream
the script sets `filter = None` and breaks. -/
def relay : Option AnyFilter → List String → Option (Option AnyFilter × List String)
  | _, [] => some (none, [])
  | st, l :: ls =>
    match relayLine st l with
    | none => none
    | some (st1, out) =>
      match relay st1 ls with
      | none => none
      | some (stEnd, outs) => some (stEnd, out ++ outs)

/-- Iterate `_parse_line` over successive lines, returning the last parse
result together with the final error node (a harness used only to state the
worked examples of the specification). -/
def runParse (e : XmlFilter.Error) : List String → Option (XmlFilter.Error × ParseRes)
  | [] => none
  | [l] => XmlFilter._parse_line e l
  | l :: l2 :: ls =>
    match XmlFilter._parse_line e l with
    | some (e1, _) => runParse e1 (l2 :: ls)
    | none => none

/-- The record-start line of the specification's worked XML example. -/
def exStartLine : String :=
  "        <error id=\"unusedVariable\" severity=\"style\" msg=\"Unused variable: a\" verbose=\"Unused variable: a\">\n"

/-- The location line of the specification's worked XML example. -/
def exLocLine : String :=
  "            <location file=\"foo.cpp\" line=\"10\"/>\n"

/-- The record-end line of the specification's worked XML example. -/
def exEndLine : String :=
  "        </error>\n"

/-- The self-closing record-start line of the specification's worked XML
example. -/
def exSelfClosingLine : String :=
  "        <error id=\"nullPointer\" severity=\"error\" msg=\"Null pointer dereference\" verbose=\"Null pointer dereference\"/>\n"

/-- A location line whose `line` attribute is the string `0`. -/
def exLocZeroLine : String :=
  "            <location file=\"foo.cpp\" line=\"0\"/>\n"

/-- Claim C1: in write mode `Filter.process` inserts exactly the line into
the fingerprint set and returns the emit signal `true`; a read-mode filter
whose set contains the line returns `false` (suppress) from `process`. -/
theorem claim_C1 :
    (∀ (f : Filter) (L : String), f.read_mode = false →
      Filter.process f L = ({ f with lines_dict := insertKey f.lines_dict L }, true)) ∧
    (∀ (f : Filter) (L : String), f.read_mode = true → L ∈ f.lines_dict →
      Filter.process f L = (f, false)) := by
  constructor
  · intro f L h
    simp [Filter.process, h]
  · intro f L h hm
    simp [Filter.process, h, hm]

/-- Witness for C1, at the specification's plain-filter example line. -/
theorem claim_C1_witness :
    (Filter.process
        { filename := "cppcheck.pickle", read_mode := false, overwrite := true, lines_dict := [] }
        "foo.cpp:10: warning: unused variable\n" =
      ({ filename := "cppcheck.pickle", read_mode := false, overwrite := true,
         lines_dict := insertKey [] "foo.cpp:10: warning: unused variable\n" }, true)) ∧
    (Filter.process
        { filename := "cppcheck.pickle", read_mode := true, overwrite := false,
          lines_dict := ["foo.cpp:10: warning: unused variable\n"] }
        "foo.cpp:10: warning: unused variable\n" =
      ({ filename := "cppcheck.pickle", read_mode := true, overwrite := false,
         lines_dict := ["foo.cpp:10: warning: unused variable\n"] }, false)) :=
  ⟨claim_C1.1 _ _ rfl, claim_C1.2 _ _ rfl (by decide)⟩

/-- Claim C2: fingerprint formatting degrades from `[id]:[file]:[line]` to
`[id]:[file]` to `[id]`, and an absent id yields no valid fingerprint (it is
never stored in write mode and never suppresses in read mode); the two
worked examples of the specification fingerprint as stated. -/
theorem claim_C2 :
    (∀ e : XmlFilter.Error, e.id ≠ "" → e.file ≠ "" → e.line ≠ 0 →
      e.get_suppress_format =
        some ("[" ++ e.id ++ "]:[" ++ e.file ++ "]:[" ++ toString e.line ++ "]")) ∧
    (∀ e : XmlFilter.Error, e.id ≠ "" → e.file ≠ "" → e.line = 0 →
      e.get_suppress_format = some ("[" ++ e.id ++ "]:[" ++ e.file ++ "]")) ∧
    (∀ e : XmlFilter.Error, e.id ≠ "" → e.file = "" →
      e.get_suppress_format = some ("[" ++ e.id ++ "]")) ∧
    (∀ e : XmlFilter.Error, e.id = "" → e.get_suppress_format = none) ∧
    (∀ (f : XmlFilter) (L : String) (e1 : XmlFilter.Error),
      f.read_mode = false →
      XmlFilter._parse_line f.error_node L = some (e1, ParseRes.fp none) →
      XmlFilter.process f L = some ({ f with error_node := e1 }, ProcRes.emit true)) ∧
    (∀ (f : XmlFilter) (L : String) (e1 : XmlFilter.Error),
      f.read_mode = true →
      XmlFilter._parse_line f.error_node L = some (e1, ParseRes.fp none) →
      XmlFilter.process f L = some ({ f with error_node := e1 }, ProcRes.text e1.node)) ∧
    Option.map Prod.snd (runParse {} [exStartLine, exLocLine, exEndLine]) =
      some (ParseRes.fp (some "[unusedVariable]:[foo.cpp]:[10]")) ∧
    Option.map Prod.snd (XmlFilter._parse_line {} exSelfClosingLine) =
      some (ParseRes.fp (some "[nullPointer]")) := by
  refine ⟨?_, ?_, ?_, ?_, ?_, ?_, by decide, by decide⟩
  · intro e h1 h2 h3
    simp [XmlFilter.Error.get_suppress_format, XmlFilter.Error.is_valid, h1, h2, h3]
  · intro e h1 h2 h3
    simp [XmlFilter.Error.get_suppress_format, XmlFilter.Error.is_valid, h1, h2, h3]
  · intro e h1 h2
    simp [XmlFilter.Error.get_suppress_format, XmlFilter.Error.is_valid, h1, h2]
  · intro e h1
    simp [XmlFilter.Error.get_suppress_format, XmlFilter.Error.is_valid, h1]
  · intro f L e1 hmode hparse
    simp [XmlFilter.process, hparse, hmode]
  · intro f L e1 hmode hparse
    simp [XmlFilter.process, hparse, hmode]

/-- Witness for C2: the formatting cases at concrete records and the
invalid-fingerprint behaviour of `process` at a record-end line seen with no
open record. -/
theorem claim_C2_witness :
    (({ id := "a", file := "b", line := 3 } : XmlFilter.Error).get_suppress_format =
      some ("[" ++ "a" ++ "]:[" ++ "b" ++ "]:[" ++ toString (3 : Int) ++ "]")) ∧
    (({ id := "a", file := "b", line := 0 } : XmlFilter.Error).get_suppress_format =
      some ("[" ++ "a" ++ "]:[" ++ "b" ++ "]")) ∧
    (({ id := "a" } : XmlFilter.Error).get_suppress_format = some ("[" ++ "a" ++ "]")) ∧
    (({} : XmlFilter.Error).get_suppress_format = none) ∧
    (XmlFilter.process
        { filename := "s.pickle", read_mode := false, overwrite := true, lines_dict := [],
          error_node := {} } exEndLine =
      some ({ filename := "s.pickle", read_mode := false, overwrite := true, lines_dict := [],
              error_node := { node := exEndLine } }, ProcRes.emit true)) ∧
    (XmlFilter.process
        { filename := "s.pickle", read_mode := true, overwrite := false, lines_dict := [],
          error_node := {} } exEndLine =
      some ({ filename := "s.pickle", read_mode := true, overwrite := false, lines_dict := [],
              error_node := { node := exEndLine } }, ProcRes.text exEndLine)) :=
  ⟨claim_C2.1 _ (by decide) (by decide) (by decide),
   claim_C2.2.1 _ (by decide) (by decide) rfl,
   claim_C2.2.2.1 _ (by decide) rfl,
   claim_C2.2.2.2.1 _ rfl,
   claim_C2.2.2.2.2.1 _ exEndLine _ rfl (by decide),
   claim_C2.2.2.2.2.2.1 _ exEndLine _ rfl (by decide)⟩

/-- Claim C3: in read mode `XmlFilter.process` returns a boolean parse
result unchanged as the emit decision; a fingerprint absent from the loaded
set makes it return the whole accumulated record text; a present fingerprint
makes it return `false` (suppress). -/
theorem claim_C3 :
    (∀ (f : XmlFilter) (L : String) (e1 : XmlFilter.Error) (b : Bool),
      f.read_mode = true →
      XmlFilter._parse_line f.error_node L = some (e1, ParseRes.bool b) →
      XmlFilter.process f L = some ({ f with error_node := e1 }, ProcRes.emit b)) ∧
    (∀ (f : XmlFilter) (L : String) (e1 : XmlFilter.Error) (s : String),
      f.read_mode = true →
      XmlFilter._parse_line f.error_node L = some (e1, ParseRes.fp (some s)) →
      s ∉ f.lines_dict →
      XmlFilter.process f L = some ({ f with error_node := e1 }, ProcRes.text e1.node)) ∧
    (∀ (f : XmlFilter) (L : String) (e1 : XmlFilter.Error) (s : String),
      f.read_mode = true →
      XmlFilter._parse_line f.error_node L = some (e1, ParseRes.fp (some s)) →
      s ∈ f.lines_dict →
      XmlFilter.process f L = some ({ f with error_node := e1 }, ProcRes.emit false)) := by
  refine ⟨?_, ?_, ?_⟩
  · intro f L e1 b hmode hparse
    simp [XmlFilter.process, hparse, hmode]
  · intro f L e1 s hmode hparse hmem
    simp [XmlFilter.process, hparse, hmode, hmem]
  · intro f L e1 s hmode hparse hmem
    simp [XmlFilter.process, hparse, hmode, hmem]

/-- Witness for C3: a standalone line, an unseen record-end fingerprint, and
a seen record-end fingerprint, each on a concrete read-mode filter. -/
theorem claim_C3_witness :
    (XmlFilter.process
        { filename := "s.pickle", read_mode := true, overwrite := false, lines_dict := [],
          error_node := {} } "hello\n" =
      some ({ filename := "s.pickle", read_mode := true, overwrite := false, lines_dict := [],
              error_node := { node := "hello\n" } }, ProcRes.emit true)) ∧
    (XmlFilter.process
        { filename := "s.pickle", read_mode := true, overwrite := false, lines_dict := [],
          error_node := { id := "nullPointer", node := "N" } } exEndLine =
      some ({ filename := "s.pickle", read_mode := true, overwrite := false, lines_dict := [],
              error_node := { id := "nullPointer", node := "N" ++ exEndLine } },
        ProcRes.text ("N" ++ exEndLine))) ∧
    (XmlFilter.process
        { filename := "s.pickle", read_mode := true, overwrite := false,
          lines_dict := ["[nullPointer]"],
          error_node := { id := "nullPointer", node := "N" } } exEndLine =
      some ({ filename := "s.pickle", read_mode := true, overwrite := false,
              lines_dict := ["[nullPointer]"],
              error_node := { id := "nullPointer", node := "N" ++ exEndLine } },
        ProcRes.emit false)) :=
  ⟨claim_C3.1 _ "hello\n" _ true rfl (by decide),
   claim_C3.2.1 _ exEndLine _ "[nullPointer]" rfl (by decide) (by decide),
   claim_C3.2.2 _ exEndLine _ "[nullPointer]" rfl (by decide) (by decide)⟩

/-- Counterexample for C4: a write-mode filter whose fingerprint set is
empty still writes the store file — starting from a file system with no file
at `cppcheck.pickle`, `_write` creates one holding the empty set, against
the claim that a write-mode run that recorded nothing never creates a store
file. -/
theorem claim_C4_counterexample :
    ((fun _ => none : FS) "cppcheck.pickle" = none) ∧
    (Filter._write (fun _ => none)
        { filename := "cppcheck.pickle", read_mode := false, overwrite := true,
          lines_dict := [] }).1 "cppcheck.pickle" = some [] :=
  ⟨rfl, by decide⟩

/-- Claim C4 (amended): the store's save performs no write when the filter
is in read mode; but in write mode with a nonempty filename (and the
overwrite check passing) the save always writes the set, even when it is
empty — `is_active()` is identically true in write mode, so an empty
write-mode run does create a store file holding the empty set. -/
theorem claim_C4 :
    (∀ (fs : FS) (f : Filter), f.read_mode = true → Filter._write fs f = (fs, [])) ∧
    (∀ (fs : FS) (f : XmlFilter), f.read_mode = true → XmlFilter._write fs f = (fs, [])) ∧
    (∀ (fs : FS) (f : Filter), f.read_mode = false → f.filename ≠ "" →
      (f.overwrite = true ∨ fs f.filename = none) →
      (Filter._write fs f).1 f.filename = some f.lines_dict) ∧
    (∀ (fs : FS) (f : XmlFilter), f.read_mode = false → f.filename ≠ "" →
      (f.overwrite = true ∨ fs f.filename = none) →
      (XmlFilter._write fs f).1 f.filename = some f.lines_dict) := by
  refine ⟨?_, ?_, ?_, ?_⟩
  · intro fs f h
    simp [Filter._write, h]
  · intro fs f h
    simp [XmlFilter._write, h]
  · intro fs f h1 h2 h3
    rcases h3 with h3 | h3 <;>
      simp [Filter._write, Filter.is_active, h1, h2, h3]
  · intro fs f h1 h2 h3
    rcases h3 with h3 | h3 <;>
      simp [XmlFilter._write, XmlFilter.is_active, h1, h2, h3]

/-- Witness for C4 (amended): a read-mode save is a no-op, and a write-mode
save with an empty set creates the file. -/
theorem claim_C4_witness :
    (Filter._write (fun _ => none)
        { filename := "cppcheck.pickle", read_mode := true, overwrite := false,
          lines_dict := ["x"] } = (fun _ => none, [])) ∧
    (XmlFilter._write (fun _ => none)
        { filename := "cppcheck.pickle", read_mode := true, overwrite := false,
          lines_dict := ["x"], error_node := {} } = (fun _ => none, [])) ∧
    ((Filter._write (fun _ => none)
        { filename := "cppcheck.pickle", read_mode := false, overwrite := false,
          lines_dict := [] }).1 "cppcheck.pickle" = some []) ∧
    ((XmlFilter._write (fun _ => none)
        { filename := "cppcheck.pickle", read_mode := false, overwrite := false,
          lines_dict := [], error_node := {} }).1 "cppcheck.pickle" = some []) :=
  ⟨claim_C4.1 _ _ rfl,
   claim_C4.2.1 _ _ rfl,
   claim_C4.2.2.1 _ _ rfl (by decide) (Or.inr rfl),
   claim_C4.2.2.2 _ _ rfl (by decide) (Or.inr rfl)⟩

/-- Claim C5: saving a fingerprint set and loading it back through the same
filter class (write-mode save actually performed, then a read-mode load of
the same path) yields the same set, for the plain filter and the XML filter
alike.  Pickle serialization is modelled as an abstract round-tripping
codec, which is what the source's single-toolchain contract requires. -/
theorem claim_C5 :
    (∀ (fs : FS) (wf rf : Filter),
      wf.read_mode = false → wf.filename ≠ "" →
      (wf.overwrite = true ∨ fs wf.filename = none) →
      rf.read_mode = true → rf.filename = wf.filename →
      (Filter._read (Filter._write fs wf).1 rf).1.lines_dict = wf.lines_dict) ∧
    (∀ (fs : FS) (wf rf : XmlFilter),
      wf.read_mode = false → wf.filename ≠ "" →
      (wf.overwrite = true ∨ fs wf.filename = none) →
      rf.read_mode = true → rf.filename = wf.filename →
      (XmlFilter._read (XmlFilter._write fs wf).1 rf).1.lines_dict = wf.lines_dict) := by
  constructor
  · intro fs wf rf h1 h2 h3 h4 h5
    rcases h3 with h3 | h3 <;>
      simp [Filter._read, Filter._write, Filter.is_active, h1, h2, h3, h4, h5]
  · intro fs wf rf h1 h2 h3 h4 h5
    rcases h3 with h3 | h3 <;>
      simp [XmlFilter._read, XmlFilter._write, XmlFilter.is_active, h1, h2, h3, h4, h5]

/-- Witness for C5: a concrete two-fingerprint set survives the save/load
round trip through both filter classes. -/
theorem claim_C5_witness :
    ((Filter._read
        (Filter._write (fun _ => none)
          { filename := "store.pickle", read_mode := false, overwrite := true,
            lines_dict := ["a\n", "b\n"] }).1
        { filename := "store.pickle", read_mode := true, overwrite := false,
          lines_dict := ["stale"] }).1.lines_dict = ["a\n", "b\n"]) ∧
    ((XmlFilter._read
        (XmlFilter._write (fun _ => none)
          { filename := "store.pickle", read_mode := false, overwrite := true,
            lines_dict := ["[id1]:[f.cpp]:[3]", "[id2]"], error_node := {} }).1
        { filename := "store.pickle", read_mode := true, overwrite := false,
          lines_dict := ["stale"], error_node := {} }).1.lines_dict =
      ["[id1]:[f.cpp]:[3]", "[id2]"]) :=
  ⟨claim_C5.1 _ _ _ rfl (by decide) (Or.inl rfl) rfl rfl,
   claim_C5.2 _ _ _ rfl (by decide) (Or.inl rfl) rfl rfl⟩

/-- Claim C6: saving to a path where a file already exists, with overwrite
off, leaves the file system unchanged and emits a warning; `_write` is a
total function, so no exception is raised.  (The read-mode hypothesis is
`false` because the save path that can touch the file is the write-mode
one; in read mode `_write` is already a silent no-op.) -/
theorem claim_C6 :
    (∀ (fs : FS) (f : Filter) (c : List String),
      f.read_mode = false → f.overwrite = false → f.filename ≠ "" →
      fs f.filename = some c →
      Filter._write fs f = (fs, [Warn.fileExists f.filename])) ∧
    (∀ (fs : FS) (f : XmlFilter) (c : List String),
      f.read_mode = false → f.overwrite = false → f.filename ≠ "" →
      fs f.filename = some c →
      XmlFilter._write fs f = (fs, [Warn.fileExists f.filename])) := by
  constructor
  · intro fs f c h1 h2 h3 h4
    simp [Filter._write, Filter.is_active, h1, h2, h3, h4]
  · intro fs f c h1 h2 h3 h4
    simp [XmlFilter._write, XmlFilter.is_active, h1, h2, h3, h4]

/-- Witness for C6: with a file already at `store.pickle` and overwrite off,
the save returns the file system unchanged and warns, for both classes. -/
theorem claim_C6_witness :
    (Filter._write (fun p => if p = "store.pickle" then some ["old"] else none)
        { filename := "store.pickle", read_mode := false, overwrite := false,
          lines_dict := ["new"] } =
      (fun p => if p = "store.pickle" then some ["old"] else none,
        [Warn.fileExists "store.pickle"])) ∧
    (XmlFilter._write (fun p => if p = "store.pickle" then some ["old"] else none)
        { filename := "store.pickle", read_mode := false, overwrite := false,
          lines_dict := ["new"], error_node := {} } =
      (fun p => if p = "store.pickle" then some ["old"] else none,
        [Warn.fileExists "store.pickle"])) :=
  ⟨claim_C6.1 _ _ ["old"] rfl rfl (by decide) (by decide),
   claim_C6.2 _ _ ["old"] rfl rfl (by decide) (by decide)⟩

/-- Claim C7: loading from a path with no file, in read mode, is non-fatal:
`_read` is total (the `IOError` is caught), warns, and yields the empty
fingerprint set. -/
theorem claim_C7 :
    (∀ (fs : FS) (f : Filter),
      f.read_mode = true → f.filename ≠ "" → fs f.filename = none →
      Filter._read fs f =
        ({ f with lines_dict := [] }, [Warn.missingFile f.filename])) ∧
    (∀ (fs : FS) (f : XmlFilter),
      f.read_mode = true → f.filename ≠ "" → fs f.filename = none →
      XmlFilter._read fs f =
        ({ f with lines_dict := [] }, [Warn.missingFile f.filename])) := by
  constructor
  · intro fs f h1 h2 h3
    simp [Filter._read, h1, h2, h3]
  · intro fs f h1 h2 h3
    simp [XmlFilter._read, h1, h2, h3]

/-- Witness for C7: loading from an empty file system yields the empty set
plus the warning, for both classes. -/
theorem claim_C7_witness :
    (Filter._read (fun _ => none)
        { filename := "missing.pickle", read_mode := true, overwrite := false,
          lines_dict := ["stale"] } =
      ({ filename := "missing.pickle", read_mode := true, overwrite := false,
         lines_dict := [] }, [Warn.missingFile "missing.pickle"])) ∧
    (XmlFilter._read (fun _ => none)
        { filename := "missing.pickle", read_mode := true, overwrite := false,
          lines_dict := ["stale"], error_node := {} } =
      ({ filename := "missing.pickle", read_mode := true, overwrite := false,
         lines_dict := [], error_node := {} }, [Warn.missingFile "missing.pickle"])) :=
  ⟨claim_C7.1 _ _ rfl (by decide) rfl,
   claim_C7.2 _ _ rfl (by decide) rfl⟩

/-- Counterexample for C8: the line `"hello\n"` matches none of the three
patterns; the parser does append it to the accumulator, but `_parse_line`
returns `True`, so a read-mode `process` returns the emit signal `true` —
the line is emitted on its own, not withheld as the claim states. -/
theorem claim_C8_counterexample :
    matchStart "hello\n".data = none ∧
    matchLocation "hello\n".data = none ∧
    matchEnd "hello\n".data = false ∧
    XmlFilter.process
        { filename := "s.pickle", read_mode := true, overwrite := false, lines_dict := ["x"],
          error_node := { node := "        <error" } } "hello\n" =
      some ({ filename := "s.pickle", read_mode := true, overwrite := false,
              lines_dict := ["x"],
              error_node := { node := "        <error" ++ "hello\n" } },
        ProcRes.emit true) :=
  ⟨rfl, rfl, rfl, by decide⟩

/-- Claim C8 (amended): a line matching none of the three patterns is
appended verbatim to the open record's accumulator, and the parser returns
`True` — in read mode such a line is emitted on its own as a standalone
line, not withheld. -/
theorem claim_C8 :
    (∀ (e : XmlFilter.Error) (L : String),
      matchStart L.data = none → matchLocation L.data = none → matchEnd L.data = false →
      XmlFilter._parse_line e L =
        some ({ e with node := e.node ++ L }, ParseRes.bool true)) ∧
    (∀ (f : XmlFilter) (L : String),
      f.read_mode = true →
      matchStart L.data = none → matchLocation L.data = none → matchEnd L.data = false →
      XmlFilter.process f L =
        some ({ f with
                error_node := { f.error_node with node := f.error_node.node ++ L } },
          ProcRes.emit true)) := by
  constructor
  · intro e L h1 h2 h3
    simp [XmlFilter._parse_line, h1, h2, h3]
  · intro f L hmode h1 h2 h3
    simp [XmlFilter.process, XmlFilter._parse_line, hmode, h1, h2, h3]

/-- Witness for C8 (amended), at the XML prologue line the underlying tool
emits before any record. -/
theorem claim_C8_witness :
    (XmlFilter._parse_line { id := "a", node := "N" }
        "<?xml version=\"1.0\" encoding=\"UTF-8\"?>\n" =
      some ({ id := "a", node := "N" ++ "<?xml version=\"1.0\" encoding=\"UTF-8\"?>\n" },
        ParseRes.bool true)) ∧
    (XmlFilter.process
        { filename := "s.pickle", read_mode := true, overwrite := false, lines_dict := [],
          error_node := {} } "<?xml version=\"1.0\" encoding=\"UTF-8\"?>\n" =
      some ({ filename := "s.pickle", read_mode := true, overwrite := false, lines_dict := [],
              error_node := { node := "" ++ "<?xml version=\"1.0\" encoding=\"UTF-8\"?>\n" } },
        ProcRes.emit true)) :=
  ⟨claim_C8.1 _ _ (by decide) (by decide) (by decide),
   claim_C8.2 _ _ rfl (by decide) (by decide) (by decide)⟩

/-- Claim C9: a read-mode filter with an empty fingerprint set is inactive,
the wrapper then sets the filter to `None` (in particular after a read-mode
load from a missing store file), and with no filter the relay passes every
line of the stream through unfiltered. -/
theorem claim_C9 :
    (∀ f : Filter, f.read_mode = true → f.lines_dict = [] → Filter.is_active f = false) ∧
    (∀ f : XmlFilter, f.read_mode = true → f.lines_dict = [] →
      XmlFilter.is_active f = false) ∧
    (∀ f : AnyFilter, f.is_active = false → setupFilter f = none) ∧
    (∀ (fs : FS) (f : Filter),
      f.read_mode = true → f.filename ≠ "" → fs f.filename = none →
      setupFilter (AnyFilter.plain (Filter._read fs f).1) = none) ∧
    (∀ (fs : FS) (f : XmlFilter),
      f.read_mode = true → f.filename ≠ "" → fs f.filename = none →
      setupFilter (AnyFilter.xml (XmlFilter._read fs f).1) = none) ∧
    (∀ lines : List String, relay none lines = some (none, lines)) := by
  refine ⟨?_, ?_, ?_, ?_, ?_, ?_⟩
  · intro f h1 h2
    simp [Filter.is_active, h1, h2]
  · intro f h1 h2
    simp [XmlFilter.is_active, h1, h2]
  · intro f h
    simp [setupFilter, h]
  · intro fs f h1 h2 h3
    simp [Filter._read, setupFilter, AnyFilter.is_active, Filter.is_active, h1, h2, h3]
  · intro fs f h1 h2 h3
    simp [XmlFilter._read, setupFilter, AnyFilter.is_active, XmlFilter.is_active, h1, h2, h3]
  · intro lines
    induction lines with
    | nil => rfl
    | cons l ls ih => simp [relay, relayLine, ih]

/-- Witness for C9: a concrete empty read-mode filter is inactive and is
replaced by `None`, and the filterless relay reproduces a concrete stream. -/
theorem claim_C9_witness :
    (Filter.is_active
        { filename := "s.pickle", read_mode := true, overwrite := false,
          lines_dict := [] } = false) ∧
    (XmlFilter.is_active
        { filename := "s.pickle", read_mode := true, overwrite := false,
          lines_dict := [], error_node := {} } = false) ∧
    (setupFilter (AnyFilter.plain
        { filename := "s.pickle", read_mode := true, overwrite := false,
          lines_dict := [] }) = none) ∧
    (setupFilter (AnyFilter.plain
        (Filter._read (fun _ => none)
          { filename := "s.pickle", read_mode := true, overwrite := false,
            lines_dict := ["stale"] }).1) = none) ∧
    (setupFilter (AnyFilter.xml
        (XmlFilter._read (fun _ => none)
          { filename := "s.pickle", read_mode := true, overwrite := false,
            lines_dict := ["stale"], error_node := {} }).1) = none) ∧
    (relay none ["a\n", "b\n", "c\n"] = some (none, ["a\n", "b\n", "c\n"])) :=
  ⟨claim_C9.1 _ rfl rfl,
   claim_C9.2.1 _ rfl rfl,
   claim_C9.2.2.1 _ rfl,
   claim_C9.2.2.2.1 _ _ rfl (by decide) rfl,
   claim_C9.2.2.2.2.1 _ _ rfl (by decide) rfl,
   claim_C9.2.2.2.2.2 _⟩

/-- Claim C10: the line attribute string `0` is parsed to the integer 0,
which the fingerprint formatter treats as an absent line number: a record
with id and file present then fingerprints to `[id]:[file]`. -/
theorem claim_C10 :
    pyInt "0".data = some 0 ∧
    (∀ e : XmlFilter.Error,
      XmlFilter._parse_line e exLocZeroLine =
        some ({ e with node := e.node ++ exLocZeroLine, file := "foo.cpp", line := 0 },
          ParseRes.bool false)) ∧
    (∀ e : XmlFilter.Error, e.id ≠ "" → e.file ≠ "" → e.line = 0 →
      e.get_suppress_format = some ("[" ++ e.id ++ "]:[" ++ e.file ++ "]")) ∧
    Option.map Prod.snd (runParse {} [exStartLine, exLocZeroLine, exEndLine]) =
      some (ParseRes.fp (some "[unusedVariable]:[foo.cpp]")) := by
  have hs : matchStart exLocZeroLine.data = none := by decide
  have hl : matchLocation exLocZeroLine.data = some ("foo.cpp".data, "0".data) := by decide
  have hp : pyInt "0".data = some (0 : Int) := by decide
  refine ⟨hp, ?_, ?_, by decide⟩
  · intro e
    simp only [XmlFilter._parse_line, hs, hl, hp]
  · intro e h1 h2 h3
    simp [XmlFilter.Error.get_suppress_format, XmlFilter.Error.is_valid, h1, h2, h3]

/-- Witness for C10's formatting conjunct, at a concrete record with line 0. -/
theorem claim_C10_witness :
    ({ id := "unusedVariable", file := "foo.cpp", line := 0 } :
        XmlFilter.Error).get_suppress_format =
      some ("[" ++ "unusedVariable" ++ "]:[" ++ "foo.cpp" ++ "]") :=
  claim_C10.2.2.1 _ (by decide) (by decide) rfl

end PyCppcheck
